import Mathlib

/-!
Shallow embedding of the Tasmania fishing assistant (`tools_model.py`,
`router.py`, `rag_model.py`, `prompts.py`, `main_ui.py`) together with
theorems that settle the specification claims about it.

Conventions of the embedding:
* Python floats are modelled by `ℚ`; machine floating point is not relevant
  to any band/threshold in the code (all constants are small integers).
* Python dicts with heterogeneous values are modelled by association lists
  over `PyVal`; `d[k]` is `dget d k` (with an explicit `KeyError` where the
  code can raise), `d.get(k, v)` is `(dget d k).getD v`.
* Python exceptions are modelled by `Except PyErr`; `try/except` blocks
  become `match` on the `Except` value.
* External collaborators (the text-generation model, the vector search
  engine, the HTTP weather provider, the species data file) are parameters
  of the embedded functions, exactly at the narrow interfaces the code
  uses them.
-/

/-- Characters treated as whitespace by Python `str.strip` / `str.split`
(ASCII subset, which is all that occurs in this program). -/
def isPySpace (c : Char) : Bool :=
  c = ' ' || c = '\t' || c = '\n' || c = '\r' || c = '\x0b' || c = '\x0c'

/-- The twenty-six ASCII upper/lower case pairs. -/
def upperLowerTable : List (Char × Char) :=
  [('A', 'a'), ('B', 'b'), ('C', 'c'), ('D', 'd'), ('E', 'e'), ('F', 'f'),
   ('G', 'g'), ('H', 'h'), ('I', 'i'), ('J', 'j'), ('K', 'k'), ('L', 'l'),
   ('M', 'm'), ('N', 'n'), ('O', 'o'), ('P', 'p'), ('Q', 'q'), ('R', 'r'),
   ('S', 's'), ('T', 't'), ('U', 'u'), ('V', 'v'), ('W', 'w'), ('X', 'x'),
   ('Y', 'y'), ('Z', 'z')]

/-- ASCII lower-casing of one character, modelling Python `str.lower`
(the program only ever normalizes ASCII species names and queries). -/
def pyLowerChar (c : Char) : Char :=
  ((upperLowerTable.find? (fun p => p.1 == c)).map (fun p => p.2)).getD c

/-- ASCII upper-casing of one character (used by `str.title`). -/
def pyUpperChar (c : Char) : Char :=
  ((upperLowerTable.find? (fun p => p.2 == c)).map (fun p => p.1)).getD c

/-- Drop leading and trailing whitespace of a character list (Python
`str.strip()`). -/
def stripChars (l : List Char) : List Char :=
  ((l.dropWhile isPySpace).reverse.dropWhile isPySpace).reverse

/-- Python `s.strip()`. -/
def pyStrip (s : String) : String := String.mk (stripChars s.toList)

/-- Python `s.lower()` (ASCII). -/
def pyLower (s : String) : String := String.mk (s.toList.map pyLowerChar)

/-- Species-name normalization used by `check_legal_size`
(`species.lower().strip()`, tools_model.py line 187). -/
def normalizeSpecies (s : String) : String :=
  pyStrip (pyLower s)

/-- Whether `c` is an ASCII letter (used by the `str.title` model). -/
def isAsciiAlpha (c : Char) : Bool :=
  ('a' ≤ c && c ≤ 'z') || ('A' ≤ c && c ≤ 'Z')

/-- Model of Python `str.title()` on ASCII text: the first letter of each
alphabetic run is upper-cased, the rest lower-cased. -/
def pyTitleAux : List Char → Bool → List Char
  | [], _ => []
  | c :: rest, prevAlpha =>
    (if prevAlpha then pyLowerChar c else pyUpperChar c) ::
      pyTitleAux rest (isAsciiAlpha c)

/-- Python `s.title()`. -/
def pyTitle (s : String) : String := String.mk (pyTitleAux s.toList false)

/-- Accumulating loop of the whitespace split: `acc` is the current word,
reversed. -/
def pySplitWsAux : List Char → List Char → List String
  | [], acc => if acc.isEmpty then [] else [String.mk acc.reverse]
  | c :: rest, acc =>
    if isPySpace c then
      if acc.isEmpty then pySplitWsAux rest []
      else String.mk acc.reverse :: pySplitWsAux rest []
    else pySplitWsAux rest (c :: acc)

/-- Python `str.split()` with no separator: split on whitespace runs and
drop empty pieces. -/
def pySplitWs (s : String) : List String := pySplitWsAux s.toList []

/-- Python `" ".join(words)`. -/
def joinWords (ws : List String) : String := String.intercalate " " ws

/-- Does the character-list `l` contain `pat` as a contiguous sublist?
Models Python `pat in s`. -/
def listContainsSub : List Char → List Char → Bool
  | _, [] => true
  | [], _ :: _ => false
  | c :: rest, p :: ps =>
    (List.isPrefixOf (p :: ps) (c :: rest)) || listContainsSub rest (p :: ps)

/-- Python `pat in s` on strings. -/
def containsSub (s pat : String) : Bool := listContainsSub s.toList pat.toList

/-- Index of the first occurrence of `pat` as a contiguous sublist of `l`. -/
def firstIdxOf : List Char → List Char → Option Nat
  | _, [] => some 0
  | [], _ :: _ => none
  | c :: rest, p :: ps =>
    if List.isPrefixOf (p :: ps) (c :: rest) then some 0
    else (firstIdxOf rest (p :: ps)).map (· + 1)

/-- Index of the last occurrence of character `ch` in `l`. -/
def lastIdxOfChar (l : List Char) (ch : Char) : Option Nat :=
  (List.range l.length).foldl
    (fun acc i => if l.get? i = some ch then some i else acc) none

/-- The apostrophe character, used when building message strings. -/
def apos : String := String.singleton (Char.ofNat 39)

/-- Opening curly brace character. -/
def lbrace : Char := Char.ofNat 123

/-- Closing curly brace character. -/
def rbrace : Char := Char.ofNat 125

/-- The double-quote character. -/
def quoteC : Char := Char.ofNat 34

/-- Values of Python/JSON data manipulated by the program: `None`/JSON
null, booleans, numbers (as `ℚ`), strings, lists and dicts. -/
inductive PyVal where
  | none : PyVal
  | bool : Bool → PyVal
  | num : ℚ → PyVal
  | str : String → PyVal
  | list : List PyVal → PyVal
  | dict : List (String × PyVal) → PyVal

/-- A Python dict with string keys, as an association list in insertion
order. -/
abbrev PyDict := List (String × PyVal)

/-- First-match association lookup: `d[k]` / `d.get(k)` on dicts whose keys
are unique (which is how the program builds every dict). -/
def dget : PyDict → String → Option PyVal
  | [], _ => Option.none
  | (k, v) :: rest, key => if k = key then some v else dget rest key

/-- Python truthiness of a value (`bool(v)`). -/
def pyTruthyV : PyVal → Bool
  | PyVal.none => false
  | PyVal.bool b => b
  | PyVal.num q => q ≠ 0
  | PyVal.str s => s ≠ ""
  | PyVal.list l => ¬ l.isEmpty
  | PyVal.dict d => ¬ d.isEmpty

/-- Python truthiness of an optional lookup result (missing key counts as
`None`, hence falsy). -/
def pyTruthy (o : Option PyVal) : Bool :=
  match o with
  | Option.none => false
  | some v => pyTruthyV v

/-- Rendering of a rational as text, standing in for Python number
formatting inside f-strings (the exact float spelling is irrelevant to
every claim; only equality of equal inputs matters). -/
def ratStr (q : ℚ) : String :=
  if q.den = 1 then toString q.num else toString q.num ++ "/" ++ toString q.den

/-- Python exceptions that the embedded code can raise. -/
inductive PyErr where
  | keyError : String → PyErr
  | attributeError : String → PyErr
  | typeError : String → PyErr
  | valueError : String → PyErr
  | other : String → PyErr
deriving DecidableEq

/-- Python `str(e)` for the exceptions above (`str(KeyError("k"))` is the
repr of the key, i.e. `'k'`). -/
def pyErrStr : PyErr → String
  | PyErr.keyError k => apos ++ k ++ apos
  | PyErr.attributeError m => m
  | PyErr.typeError m => m
  | PyErr.valueError m => m
  | PyErr.other m => m

/-- Python `str(v)` for the values the program interpolates into messages
(`str(None) = "None"`, booleans capitalized, strings unquoted). -/
def pyStr : PyVal → String
  | PyVal.none => "None"
  | PyVal.bool true => "True"
  | PyVal.bool false => "False"
  | PyVal.num q => ratStr q
  | PyVal.str s => s
  | PyVal.list _ => "[...]"
  | PyVal.dict _ => "{...}"

/-- Fuel-bounded JSON serializer modelling `json.dumps` (the exact text is
irrelevant to every claim: it is only ever passed on to the
text-generation collaborator). -/
def pyJsonDumpsF : Nat → PyVal → String
  | 0, _ => ""
  | _ + 1, PyVal.none => "null"
  | _ + 1, PyVal.bool true => "true"
  | _ + 1, PyVal.bool false => "false"
  | _ + 1, PyVal.num q => ratStr q
  | _ + 1, PyVal.str s => String.singleton quoteC ++ s ++ String.singleton quoteC
  | fuel + 1, PyVal.list l =>
    "[" ++ String.intercalate ", " (l.map (pyJsonDumpsF fuel)) ++ "]"
  | fuel + 1, PyVal.dict d =>
    String.singleton lbrace ++
      String.intercalate ", "
        (d.map (fun p =>
          String.singleton quoteC ++ p.1 ++ String.singleton quoteC ++ ": " ++
            pyJsonDumpsF fuel p.2)) ++
      String.singleton rbrace

/-- `json.dumps` with enough fuel for every value the program builds. -/
def pyJsonDumps (v : PyVal) : String := pyJsonDumpsF 100 v

/-! ## Legal size checker (`tools_model.py`, `check_legal_size`)

The size-limit table is loaded at startup from the external data file
`data/tas_fishing_species.json` (plus manual overrides); the table is
therefore a parameter of the embedded checker, as a `(species key, minimum
size in cm)` association list with unique keys. -/

/-- First-match lookup in the size-limit table (`species in self.legal_sizes`
followed by `self.legal_sizes[species]`). -/
def lookupQ : List (String × ℚ) → String → Option ℚ
  | [], _ => Option.none
  | (k, v) :: rest, key => if k = key then some v else lookupQ rest key

/-- The manual overrides of `_load_legal_sizes` (tools_model.py lines
138-144); whenever the data file loads, these keys are guaranteed present
in the table. Used as a concrete sample table in witnesses. -/
def manualSizes : List (String × ℚ) :=
  [("brown trout", 25), ("rainbow trout", 25), ("atlantic salmon", 30),
   ("trout brown", 25), ("salmon atlantic", 30)]

/-- Message for a legal catch (tools_model.py lines 222-228). -/
def legalKeepMessage (speciesNormalized : String) (lengthCm legalSize difference : ℚ)
    (measurementNote : String) : String :=
  "âœ… **LEGAL TO KEEP**\n\n" ++
  "â€¢ Species: " ++ pyTitle speciesNormalized ++ "\n" ++
  "â€¢ Your catch: " ++ ratStr lengthCm ++ " cm" ++ measurementNote ++ "\n" ++
  "â€¢ Legal minimum: " ++ ratStr legalSize ++ " cm\n" ++
  "â€¢ Over limit by: " ++ ratStr difference ++ " cm\n\n" ++
  "This fish meets the legal size requirement and may be kept (subject to bag limits)."

/-- Message for an undersized catch (tools_model.py lines 229-235). -/
def mustReleaseMessage (speciesNormalized : String) (lengthCm legalSize difference : ℚ)
    (measurementNote : String) : String :=
  "âŒ **MUST BE RELEASED**\n\n" ++
  "â€¢ Species: " ++ pyTitle speciesNormalized ++ "\n" ++
  "â€¢ Your catch: " ++ ratStr lengthCm ++ " cm" ++ measurementNote ++ "\n" ++
  "â€¢ Legal minimum: " ++ ratStr legalSize ++ " cm\n" ++
  "â€¢ Under limit by: " ++ ratStr |difference| ++ " cm\n\n" ++
  "This fish is undersized and must be returned to the water immediately with care."

/-- `ToolsModel.check_legal_size` (tools_model.py lines 161-245). The
returned Python dict is modelled field by field; `table` is
`self.legal_sizes` and `enabled` is `self.legal_size_enabled`. -/
def checkLegalSize (table : List (String × ℚ)) (enabled : Bool)
    (species : String) (lengthCm : ℚ) : PyDict :=
  if ¬ enabled then
    [("success", PyVal.bool false),
     ("error", PyVal.str "Legal size check tool is disabled"),
     ("message", PyVal.str "Legal size check tool is currently disabled in configuration")]
  else
    let speciesNormalized := normalizeSpecies species
    match lookupQ table speciesNormalized with
    | Option.none =>
      let availableSpecies := String.intercalate ", " (table.map (fun p => p.1))
      [("success", PyVal.bool false),
       ("error", PyVal.str ("Unknown species: " ++ species)),
       ("message", PyVal.str
         ("I don" ++ apos ++ "t have legal size information for " ++ apos ++ species
           ++ apos ++ ". Available species: " ++ availableSpecies)),
       ("available_species", PyVal.list (table.map (fun p => PyVal.str p.1)))]
    | some legalSize =>
      if lengthCm ≤ 0 then
        [("success", PyVal.bool false),
         ("error", PyVal.str "Invalid length"),
         ("message", PyVal.str
           ("Length must be greater than 0. You provided: " ++ ratStr lengthCm ++ " cm"))]
      else
        let isLegal : Bool := decide (legalSize ≤ lengthCm)
        let difference := lengthCm - legalSize
        let measurementNote :=
          if speciesNormalized = "rock lobster" then " (carapace length)"
          else if speciesNormalized = "abalone" then " (shell length)"
          else ""
        let message :=
          if isLegal then
            legalKeepMessage speciesNormalized lengthCm legalSize difference measurementNote
          else
            mustReleaseMessage speciesNormalized lengthCm legalSize difference measurementNote
        [("success", PyVal.bool true),
         ("legal", PyVal.bool isLegal),
         ("species", PyVal.str speciesNormalized),
         ("length_cm", PyVal.num lengthCm),
         ("legal_size_cm", PyVal.num legalSize),
         ("difference_cm", PyVal.num difference),
         ("message", PyVal.str message)]

/-! ## Fishing-conditions assessment (`tools_model.py`, `_assess_fishing_conditions`) -/

/-- Rating and emoji chosen from the accumulated score
(tools_model.py lines 410-422). -/
def ratingEmoji (score : ℕ) : String × String :=
  if 7 ≤ score then ("Excellent", "ðŸŽ£âœ¨")
  else if 5 ≤ score then ("Good", "ðŸŽ£")
  else if 3 ≤ score then ("Fair", "âš ï¸")
  else ("Poor", "âŒ")

/-- Temperature contribution and factor line (tools_model.py lines 377-386). -/
def tempScoreFactor (temp : ℚ) : ℕ × String :=
  if 10 ≤ temp ∧ temp ≤ 25 then (3, "âœ… Good temperature")
  else if (5 ≤ temp ∧ temp < 10) ∨ (25 < temp ∧ temp ≤ 30) then
    (1, "âš ï¸ Moderate temperature")
  else (0, "âŒ Extreme temperature")

/-- Wind contribution and factor line (tools_model.py lines 388-397). -/
def windScoreFactor (wind : ℚ) : ℕ × String :=
  if wind < 15 then (3, "âœ… Light winds")
  else if 15 ≤ wind ∧ wind < 25 then (1, "âš ï¸ Moderate winds")
  else (0, "âŒ Strong winds")

/-- Rain contribution and factor line (tools_model.py lines 399-408). -/
def rainScoreFactor (rain : ℚ) : ℕ × String :=
  if rain < 2 then (2, "âœ… Dry conditions")
  else if 2 ≤ rain ∧ rain < 10 then (1, "âš ï¸ Light rain possible")
  else (0, "âŒ Heavy rain expected")

/-- Numeric field read `forecast[key]`; the forecast dicts built by the
program always carry the three keys the assessment reads, so the `0`
default of this helper is never exercised there. -/
def numAt (d : PyDict) (key : String) : ℚ :=
  match dget d key with
  | some (PyVal.num q) => q
  | _ => 0

/-- `ToolsModel._assess_fishing_conditions` (tools_model.py lines 361-429).
Takes `forecasts[0] if forecasts else None` and returns the assessment
dict. -/
def assessFishingConditions (forecast : Option PyDict) : PyDict :=
  match forecast with
  | Option.none =>
    [("rating", PyVal.str "Unknown"),
     ("explanation", PyVal.str "No forecast data available")]
  | some f =>
    let temp := numAt f "temp_avg_c"
    let wind := numAt f "wind_speed_kmh"
    let rain := numAt f "rainfall_mm"
    let score := (tempScoreFactor temp).1 + (windScoreFactor wind).1 +
      (rainScoreFactor rain).1
    let factors := [(tempScoreFactor temp).2, (windScoreFactor wind).2,
      (rainScoreFactor rain).2]
    let re := ratingEmoji score
    [("rating", PyVal.str re.1),
     ("emoji", PyVal.str re.2),
     ("score", PyVal.num (score : ℚ)),
     ("factors", PyVal.list (factors.map PyVal.str))]

/-! ## Weather forecast construction (`tools_model.py`, `_get_openweathermap_forecast`) -/

/-- One 3-hourly sample of the provider response (`data['list']` items):
`dt_txt`, `main.temp`, `weather[0].description`, `wind.speed`,
`main.humidity` and the optional `rain.3h` accumulation. -/
structure WSample where
  dtTxt : String
  temp : ℚ
  condition : String
  windSpeed : ℚ
  humidity : ℚ
  rain3h : Option ℚ

/-- Per-date accumulator (`daily_data[date]`, tools_model.py lines 308-315). -/
structure DayAgg where
  temps : List ℚ
  conditions : List String
  windSpeeds : List ℚ
  rain : ℚ
  humidity : List ℚ

/-- The date key of a sample: `item['dt_txt'].split()[0]`. -/
def dateOf (it : WSample) : String := (pySplitWs it.dtTxt).headD ""

/-- Fold step of the grouping loop (tools_model.py lines 305-323): create
the date entry on first sight (dict insertion order preserved), then append
the sample fields. -/
def addSample (acc : List (String × DayAgg)) (it : WSample) : List (String × DayAgg) :=
  let date := dateOf it
  let upd : DayAgg → DayAgg := fun d =>
    { temps := d.temps ++ [it.temp],
      conditions := d.conditions ++ [it.condition],
      windSpeeds := d.windSpeeds ++ [it.windSpeed],
      rain := d.rain + (match it.rain3h with | some r => r | Option.none => 0),
      humidity := d.humidity ++ [it.humidity] }
  if acc.any (fun p => p.1 = date) then
    acc.map (fun p => if p.1 = date then (p.1, upd p.2) else p)
  else
    acc ++ [(date, upd ⟨[], [], [], 0, []⟩)]

/-- `daily_data` in insertion order (`list(daily_data.items())`). -/
def groupDaily (samples : List WSample) : List (String × DayAgg) :=
  samples.foldl addSample []

/-- Python list slicing `l[:d]` with an `int` bound, including the negative
case (`l[:-n]` drops the last `n` elements). -/
def pySlice {α : Type} (l : List α) (d : ℤ) : List α :=
  if 0 ≤ d then l.take d.toNat
  else l.take (l.length - min l.length d.natAbs)

/-- Sum of a list of rationals. -/
def sumQ (l : List ℚ) : ℚ := l.foldl (· + ·) 0

/-- Python `max(l)` on a nonempty list of rationals (the grouping always
yields nonempty per-day lists; the `headD 0` base is never exercised). -/
def maxQ (l : List ℚ) : ℚ := l.foldl max (l.headD 0)

/-- Python `min(l)` on a nonempty list of rationals. -/
def minQ (l : List ℚ) : ℚ := l.foldl min (l.headD 0)

/-- Python `round(x, 1)` modelled on rationals (round half away from the
rounding used by floats is irrelevant: no claim constrains rounded digits). -/
def round1 (q : ℚ) : ℚ := (round (q * 10) : ℤ) / 10

/-- Python `round(x, 0)`. -/
def round0 (q : ℚ) : ℚ := (round q : ℤ)

/-- `max(set(conditions), key=conditions.count)` — the most frequent
condition description. CPython iterates the set in unspecified order; the
embedding resolves ties to the first most-frequent string in list order. -/
def mostCommon (l : List String) : String :=
  l.foldl
    (fun best x =>
      if (l.filter (fun y => y = x)).length > (l.filter (fun y => y = best)).length
      then x else best)
    (l.headD "")

/-- Daily summary dict (tools_model.py lines 326-345). -/
def summaryDict (p : String × DayAgg) : PyDict :=
  let d := p.2
  let avgTemp := sumQ d.temps / d.temps.length
  let avgWind := sumQ d.windSpeeds / d.windSpeeds.length
  let avgHumidity := sumQ d.humidity / d.humidity.length
  [("date", PyVal.str p.1),
   ("temp_avg_c", PyVal.num (round1 avgTemp)),
   ("temp_max_c", PyVal.num (round1 (maxQ d.temps))),
   ("temp_min_c", PyVal.num (round1 (minQ d.temps))),
   ("conditions", PyVal.str (mostCommon d.conditions)),
   ("wind_speed_kmh", PyVal.num (round1 (avgWind * (36 / 10)))),
   ("rainfall_mm", PyVal.num (round1 d.rain)),
   ("humidity_percent", PyVal.num (round0 avgHumidity))]

/-- The `cnt` request parameter sent to the provider:
`min(days * 8, 40)` (tools_model.py line 293). -/
def cntParam (days : ℤ) : ℤ := min (days * 8) 40

/-- String field read with a `""` default; the message builder only reads
keys that are present on the dicts it receives. -/
def strAt (d : PyDict) (key : String) : String :=
  match dget d key with
  | some (PyVal.str s) => s
  | _ => ""

/-- Numeric field rendered as text for the message builder. -/
def numStrAt (d : PyDict) (key : String) : String := ratStr (numAt d key)

/-- Lines of one day of `_format_weather_message`
(tools_model.py lines 442-450). -/
def forecastDayLines (i : ℕ) (f : PyDict) : List String :=
  let dayLabel := if i = 1 then "Today" else "Day " ++ toString i
  ["\n**" ++ dayLabel ++ " (" ++ strAt f "date" ++ "):**",
   "â€¢ Temperature: " ++ numStrAt f "temp_min_c" ++ "Â°C - " ++
     numStrAt f "temp_max_c" ++ "Â°C (avg " ++ numStrAt f "temp_avg_c" ++ "Â°C)",
   "â€¢ Conditions: " ++ pyTitle (strAt f "conditions"),
   "â€¢ Wind: " ++ numStrAt f "wind_speed_kmh" ++ " km/h",
   "â€¢ Rainfall: " ++ numStrAt f "rainfall_mm" ++ " mm",
   "â€¢ Humidity: " ++ numStrAt f "humidity_percent" ++ "%"]

/-- `ToolsModel._format_weather_message` (tools_model.py lines 431-457). -/
def formatWeatherMessage (location : String) (forecasts : List PyDict)
    (assessment : PyDict) : String :=
  if forecasts.isEmpty then "âŒ No weather data available for " ++ location
  else
    let header :=
      ["ðŸŒ¤ï¸ **Weather Forecast for " ++ location ++ ", Tasmania**\n",
       "**Fishing Conditions:** " ++ strAt assessment "emoji" ++ " " ++
         strAt assessment "rating" ++ "\n"]
    let dayParts := (forecasts.enum.map (fun p => forecastDayLines (p.1 + 1) p.2)).flatten
    let factorLines :=
      match dget assessment "factors" with
      | some (PyVal.list fs) => fs.map (fun f => "â€¢ " ++ pyStr f)
      | _ => []
    String.intercalate "\n" (header ++ dayParts ++ ["\n**Assessment:**"] ++ factorLines)

/-- `ToolsModel._get_openweathermap_forecast` (tools_model.py lines
284-359), after the HTTP layer: `samples` is the `data['list']` returned by
the provider for the request with `cnt = cntParam days`; the `[:days]`
truncation and summary construction are as in the source. -/
def getOWMForecast (samples : List WSample) (location : String) (days : ℤ) : PyDict :=
  let daily := groupDaily samples
  let forecasts := (pySlice daily days).map summaryDict
  let fishingAssessment := assessFishingConditions forecasts.head?
  let message := formatWeatherMessage location forecasts fishingAssessment
  [("success", PyVal.bool true),
   ("location", PyVal.str location),
   ("forecasts", PyVal.list (forecasts.map PyVal.dict)),
   ("fishing_conditions", (dget fishingAssessment "rating").getD PyVal.none),
   ("message", PyVal.str message)]

/-- Number of daily summaries in a weather result dict. -/
def numForecasts (d : PyDict) : ℕ :=
  match dget d "forecasts" with
  | some (PyVal.list l) => l.length
  | _ => 0

/-! ## JSON parsing (`json.loads` as used by the router) -/

/-- Skip JSON whitespace. -/
def skipJsonWs (cs : List Char) : List Char :=
  cs.dropWhile (fun c => c = ' ' || c = '\t' || c = '\n' || c = '\r')

/-- Parse the body of a JSON string after the opening quote; returns the
decoded characters and the remainder after the closing quote. Unicode
escapes (`\uXXXX`) are not modelled (they never occur in the routing
decisions this program parses); such input fails to parse, which the
router treats like any other decode error. -/
def parseJsonStringBody : List Char → Option (List Char × List Char)
  | [] => Option.none
  | c :: rest =>
    if c = quoteC then some ([], rest)
    else if c = '\\' then
      match rest with
      | [] => Option.none
      | e :: rest2 =>
        let dec : Option Char :=
          if e = quoteC then some quoteC
          else if e = '\\' then some '\\'
          else if e = '/' then some '/'
          else if e = 'n' then some '\n'
          else if e = 't' then some '\t'
          else if e = 'r' then some '\r'
          else if e = 'b' then some '\x08'
          else if e = 'f' then some '\x0c'
          else Option.none
        match dec with
        | some d => (parseJsonStringBody rest2).map (fun p => (d :: p.1, p.2))
        | Option.none => Option.none
    else (parseJsonStringBody rest).map (fun p => (c :: p.1, p.2))

/-- Digit span of a character list. -/
def digitSpan (cs : List Char) : List Char × List Char :=
  (cs.takeWhile Char.isDigit, cs.dropWhile Char.isDigit)

/-- Value of a digit string. -/
def digitsVal (ds : List Char) : ℤ :=
  ds.foldl (fun acc c => acc * 10 + ((c.toNat : ℤ) - 48)) 0

/-- Parse a JSON number (sign, integer part, optional fraction and
exponent). -/
def parseJsonNumber (cs : List Char) : Option (ℚ × List Char) :=
  let p := match cs with | '-' :: rest => (true, rest) | _ => (false, cs)
  let neg := p.1
  let intSpan := digitSpan p.2
  if intSpan.1.isEmpty then Option.none
  else
    let base : ℚ := (digitsVal intSpan.1 : ℤ)
    let step2 : Option (ℚ × List Char) :=
      match intSpan.2 with
      | '.' :: rest =>
        let fracSpan := digitSpan rest
        if fracSpan.1.isEmpty then Option.none
        else some (base + (digitsVal fracSpan.1 : ℚ) / ((10 : ℚ) ^ fracSpan.1.length),
                   fracSpan.2)
      | other => some (base, other)
    match step2 with
    | Option.none => Option.none
    | some (q1, cs3) =>
      let step3 : Option (ℚ × List Char) :=
        match cs3 with
        | e :: rest =>
          if e = 'e' || e = 'E' then
            let p2 := match rest with
              | '+' :: r2 => (false, r2)
              | '-' :: r2 => (true, r2)
              | _ => (false, rest)
            let expSpan := digitSpan p2.2
            if expSpan.1.isEmpty then Option.none
            else
              let ex := (digitsVal expSpan.1).toNat
              some ((if p2.1 then q1 / (10 : ℚ) ^ ex else q1 * (10 : ℚ) ^ ex), expSpan.2)
          else some (q1, cs3)
        | [] => some (q1, cs3)
      match step3 with
      | some (q2, cs4) => some ((if neg then -q2 else q2), cs4)
      | Option.none => Option.none

/-- Set a key in a dict with Python semantics: overwrite in place if the
key exists, else append. -/
def dictSet (d : PyDict) (k : String) (v : PyVal) : PyDict :=
  if d.any (fun p => p.1 = k) then
    d.map (fun p => if p.1 = k then (k, v) else p)
  else d ++ [(k, v)]

mutual

/-- Parse one JSON value; `fuel` bounds the nesting depth. -/
def parseJsonVal : ℕ → List Char → Option (PyVal × List Char)
  | 0, _ => Option.none
  | fuel + 1, cs0 =>
    let cs := skipJsonWs cs0
    match cs with
    | [] => Option.none
    | c :: rest =>
      if c = quoteC then
        (parseJsonStringBody rest).map (fun p => (PyVal.str (String.mk p.1), p.2))
      else if c = lbrace then
        let rest2 := skipJsonWs rest
        match rest2 with
        | c2 :: rest3 =>
          if c2 = rbrace then some (PyVal.dict [], rest3)
          else parseJsonMembers fuel rest2 []
        | [] => Option.none
      else if c = '[' then
        let rest2 := skipJsonWs rest
        match rest2 with
        | ']' :: rest3 => some (PyVal.list [], rest3)
        | _ => parseJsonItems fuel rest2 []
      else if List.isPrefixOf "true".toList cs then some (PyVal.bool true, cs.drop 4)
      else if List.isPrefixOf "false".toList cs then some (PyVal.bool false, cs.drop 5)
      else if List.isPrefixOf "null".toList cs then some (PyVal.none, cs.drop 4)
      else (parseJsonNumber cs).map (fun p => (PyVal.num p.1, p.2))

/-- Parse the members of a JSON object (after the opening brace, first
member expected). -/
def parseJsonMembers : ℕ → List Char → PyDict → Option (PyVal × List Char)
  | 0, _, _ => Option.none
  | fuel + 1, cs0, acc =>
    let cs := skipJsonWs cs0
    match cs with
    | c :: rest =>
      if c = quoteC then
        match parseJsonStringBody rest with
        | some (keyChars, rest2) =>
          (match skipJsonWs rest2 with
           | ':' :: rest4 =>
             (match parseJsonVal fuel rest4 with
              | some (v, rest5) =>
                let acc2 := dictSet acc (String.mk keyChars) v
                (match skipJsonWs rest5 with
                 | ',' :: rest7 => parseJsonMembers fuel rest7 acc2
                 | c2 :: rest7 =>
                   if c2 = rbrace then some (PyVal.dict acc2, rest7) else Option.none
                 | [] => Option.none)
              | Option.none => Option.none)
           | _ => Option.none)
        | Option.none => Option.none
      else Option.none
    | [] => Option.none

/-- Parse the items of a JSON array (after the opening bracket, first item
expected). -/
def parseJsonItems : ℕ → List Char → List PyVal → Option (PyVal × List Char)
  | 0, _, _ => Option.none
  | fuel + 1, cs, acc =>
    match parseJsonVal fuel cs with
    | some (v, rest) =>
      (match skipJsonWs rest with
       | ',' :: rest3 => parseJsonItems fuel rest3 (acc ++ [v])
       | ']' :: rest3 => some (PyVal.list (acc ++ [v]), rest3)
       | _ => Option.none)
    | Option.none => Option.none

end

/-- `json.loads`: parse a complete JSON document (trailing whitespace
allowed, trailing garbage rejected). -/
def jsonLoads (s : String) : Option PyVal :=
  let cs := s.toList
  match parseJsonVal (cs.length + 1) cs with
  | some (v, rest) => if (skipJsonWs rest).isEmpty then some v else Option.none
  | Option.none => Option.none

/-! ## Tools dispatch (`tools_model.py`: `get_fishing_weather`,
`get_available_tools`, `call_tool`) -/

/-- The `ToolsModel` state after startup: size-limit table, enable flags,
weather configuration, and the HTTP layer (`requests.get` +
`raise_for_status` + extraction of `data['list']`) as a collaborator that
either returns samples or raises. -/
structure ToolsCtx where
  table : List (String × ℚ)
  lsEnabled : Bool
  weatherEnabled : Bool
  weatherApiKey : Option String
  weatherProvider : String
  fetch : String → Except PyErr (List WSample)

/-- `ToolsModel.get_available_tools` (tools_model.py lines 459-469). -/
def availableTools (ctx : ToolsCtx) : List String :=
  (if ctx.lsEnabled then ["check_legal_size"] else []) ++
  (if ctx.weatherEnabled then ["get_fishing_weather"] else [])

/-- Error dict produced by the `except` clause of `get_fishing_weather`
(tools_model.py lines 277-282). -/
def weatherCatchDict (e : PyErr) : PyDict :=
  [("success", PyVal.bool false),
   ("error", PyVal.str (pyErrStr e)),
   ("message", PyVal.str ("Failed to fetch weather data: " ++ pyErrStr e))]

/-- `ToolsModel.get_fishing_weather` (tools_model.py lines 247-282).
Note the `"weatherapi"` branch calls `self._get_weatherapi_forecast`, a
method that does not exist anywhere in tools_model.py; the resulting
`AttributeError` is caught by the surrounding `try/except`. -/
def getFishingWeather (ctx : ToolsCtx) (location : String) (days : ℤ) : PyDict :=
  if ¬ ctx.weatherEnabled then
    [("success", PyVal.bool false),
     ("error", PyVal.str "Weather API is not enabled"),
     ("message", PyVal.str "Weather tool is currently disabled in configuration")]
  else if (match ctx.weatherApiKey with
           | Option.none => true
           | some k => k = "") then
    [("success", PyVal.bool false),
     ("error", PyVal.str "Weather API key not found"),
     ("message", PyVal.str "Please add WEATHER_API_KEY to your .env file")]
  else
    let locationQuery := location ++ ",Tasmania,AU"
    if ctx.weatherProvider = "openweathermap" then
      match ctx.fetch locationQuery with
      | Except.ok samples => getOWMForecast samples location days
      | Except.error e => weatherCatchDict e
    else if ctx.weatherProvider = "weatherapi" then
      weatherCatchDict (PyErr.attributeError
        "\x27ToolsModel\x27 object has no attribute \x27_get_weatherapi_forecast\x27")
    else
      [("success", PyVal.bool false),
       ("error", PyVal.str "Unknown weather provider"),
       ("message", PyVal.str ("Weather provider " ++ apos ++ ctx.weatherProvider ++ apos
                               ++ " not supported"))]

/-- `ToolsModel.call_tool` (tools_model.py lines 471-497), including the
exceptions a mistyped keyword argument raises inside the tool body
(`.lower()` on a non-string species, list slicing with a non-integer day
count). -/
def callToolE (ctx : ToolsCtx) (name : PyVal) (kwargs : PyDict) : Except PyErr PyDict :=
  match name with
  | PyVal.str "check_legal_size" =>
    (match (dget kwargs "species").getD (PyVal.str ""),
           (dget kwargs "length_cm").getD (PyVal.num 0) with
     | PyVal.str sp, PyVal.num l => Except.ok (checkLegalSize ctx.table ctx.lsEnabled sp l)
     | PyVal.str _, _ =>
       Except.error (PyErr.typeError "\x27<=\x27 not supported between instances")
     | _, _ => Except.error (PyErr.attributeError "object has no attribute \x27lower\x27"))
  | PyVal.str "get_fishing_weather" =>
    (match (dget kwargs "location").getD (PyVal.str ""),
           (dget kwargs "days").getD (PyVal.num 1) with
     | locV, PyVal.num q =>
       if q.den = 1 then Except.ok (getFishingWeather ctx (pyStr locV) q.num)
       else Except.error (PyErr.typeError "slice indices must be integers")
     | locV, PyVal.bool b =>
       Except.ok (getFishingWeather ctx (pyStr locV) (if b then 1 else 0))
     | _, _ => Except.error (PyErr.typeError "unsupported operand type(s)"))
  | _ =>
    Except.ok
      [("success", PyVal.bool false),
       ("error", PyVal.str ("Unknown tool: " ++ pyStr name)),
       ("available_tools", PyVal.list ((availableTools ctx).map PyVal.str))]

/-! ## Router (`router.py`) and prompt/UI strings (`prompts.py`) -/

/-- The route kinds of `router.RouteType`. -/
inductive RouteType where
  | ragOnly : RouteType
  | toolOnly : RouteType
  | ragAndTool : RouteType
  | generalChat : RouteType
deriving DecidableEq

/-- The routing-decision dict returned by `Router._llm_route`
(router.py lines 73-85): exactly the six keys the source builds — there is
no `succeeded` field on it. -/
structure RouteDecision where
  routeType : RouteType
  needsRag : Bool
  needsTool : Bool
  toolName : PyVal
  toolParams : PyVal
  reasoning : PyVal

/-- The fallback decision of the `except` clause of `_llm_route`
(router.py lines 81-85); `e` is `str(exception)`. -/
def routeFallback (e : String) : RouteDecision :=
  { routeType := RouteType.ragOnly,
    needsRag := true,
    needsTool := false,
    toolName := PyVal.none,
    toolParams := PyVal.dict [],
    reasoning := PyVal.str ("Fallback to RAG due to routing error: " ++ e) }

/-- The fenced-block extraction `re.search(r'```json\s*(.*?)\s*```', response,
re.DOTALL)` (router.py line 54): content between the first "```json" and
the next "```", trimmed of surrounding whitespace. -/
def findFencedJson (s : String) : Option String :=
  let cs := s.toList
  match firstIdxOf cs ("```json".toList) with
  | Option.none => Option.none
  | some i =>
    let after := cs.drop (i + 7)
    match firstIdxOf after ("```".toList) with
    | Option.none => Option.none
    | some j => some (String.mk (stripChars (after.take j)))

/-- The brace-span extraction `re.search(r'\{.*\}', raw, re.DOTALL)`
(router.py line 58): from the first opening brace to the last closing
brace, provided the latter comes after the former. -/
def braceSpan (s : String) : Option String :=
  let cs := s.toList
  match firstIdxOf cs [lbrace], lastIdxOfChar cs rbrace with
  | some i, some j =>
    if i < j then some (String.mk ((cs.drop i).take (j - i + 1))) else Option.none
  | _, _ => Option.none

/-- Lines 54-59 of router.py: pick the fenced block if present, else the
whole response; if the stripped text does not start with an opening brace,
fall back to the brace span, and failing that to the literal two-character
empty-object text (which then parses successfully as an empty JSON
object). -/
def extractRaw (response : String) : String :=
  let raw := match findFencedJson response with
             | some g => g
             | Option.none => response
  let startsWithBrace : Bool := match (pyStrip raw).toList with
                                | c :: _ => c == lbrace
                                | [] => false
  if startsWithBrace then raw
  else
    match braceSpan raw with
    | some sub => sub
    | Option.none => String.singleton lbrace ++ String.singleton rbrace

/-- Message of the `json.JSONDecodeError` raised by `json.loads` on
malformed input (the exact text is provider detail; only its presence in
the fallback rationale matters). -/
def jsonDecodeErrMsg : String := "Expecting value"

/-- Message of the `AttributeError` raised by `decision.get(...)` when
`json.loads` produced a non-dict value. -/
def jsonAttrErrMsg : String := "object has no attribute \x27get\x27"

/-- `Router._llm_route` (router.py lines 47-85) after the text-generation
call: `llmResult` is the outcome of `self.llm(prompt)` (`Except.error e`
when the call raises, with `e` the exception text). Every exception inside
the `try` block lands in the fallback decision. -/
def llmRoute (llmResult : Except String String) : RouteDecision :=
  match llmResult with
  | Except.error e => routeFallback e
  | Except.ok response =>
    let raw := extractRaw response
    match jsonLoads raw with
    | some (PyVal.dict kvs) =>
      let needsRag := pyTruthy (dget kvs "needs_rag")
      let needsTool := pyTruthy (dget kvs "needs_tool")
      let routeType :=
        if needsRag && needsTool then RouteType.ragAndTool
        else if needsTool then RouteType.toolOnly
        else if needsRag then RouteType.ragOnly
        else RouteType.generalChat
      { routeType := routeType,
        needsRag := needsRag,
        needsTool := needsTool,
        toolName := (dget kvs "tool_name").getD PyVal.none,
        toolParams :=
          (fun tp => if pyTruthyV tp then tp else PyVal.dict [])
            ((dget kvs "tool_params").getD PyVal.none),
        reasoning := (dget kvs "reasoning").getD (PyVal.str "LLM routing decision") }
    | some _ => routeFallback jsonAttrErrMsg
    | Option.none => routeFallback jsonDecodeErrMsg

/-- `UI_MESSAGES['no_answer']` (prompts.py lines 243-250), verbatim. -/
def uiMessagesNoAnswer : String :=
  "I don\x27t have specific information about that in my knowledge base. \n\n**For the most accurate information, please check:**\n🌐 Inland Fisheries Service Tasmania: https://ifs.tas.gov.au/\n📞 Phone: 1300 INFISH (1300 463 474)\n\nIs there anything else about Tasmania fishing I can help with?\n"

/-- `UI_MESSAGES['error']`: the dict literal in prompts.py lists the key
`"error"` twice (lines 251-260); Python keeps the last occurrence, so the
effective value is the short one-line message. -/
def uiMessagesError : String := "I encountered an error processing your question."

/-- `GENERAL_CHAT_RESPONSES['greeting']` (prompts.py). -/
def generalChatGreeting : String :=
  "👋 Hello! I\x27m your Tasmania Fishing Assistant.\n\n                    I can help you with:\n                    • 🎣 Fishing regulations and rules\n                    • 🐟 Species information and identification\n                    • 📍 Best fishing locations\n                    • 📏 Bag and size limits\n                    • 📋 License requirements\n                    • ✅ Check if your catch is legal to keep\n                    • 🌤️ Weather conditions for fishing\n\n                    What would you like to know about fishing in Tasmania?\n                    "

/-- `GENERAL_CHAT_RESPONSES['thanks']`. -/
def generalChatThanks : String :=
  "You\x27re welcome! Feel free to ask if you have more questions about fishing in Tasmania. Tight lines! 🎣"

/-- `GENERAL_CHAT_RESPONSES['goodbye']`. -/
def generalChatGoodbye : String :=
  "Goodbye! Stay safe on the water and good luck with your fishing! 🎣"

/-- `GENERAL_CHAT_RESPONSES['help']`. -/
def generalChatHelp : String :=
  "I can help you with fishing in Tasmania! Here are some things you can ask:\n\n                **Regulations:**\n                • \x22What are the bag limits for trout?\x22\n                • \x22Do I need a license for freshwater fishing?\x22\n\n                **Size Checks:**\n                • \x22I caught a 26cm rainbow trout - can I keep it?\x22\n                • \x22What\x27s the minimum size for Atlantic salmon?\x22\n\n                **Locations:**\n                • \x22Where can I fish for brown trout?\x22\n                • \x22Best spots for salmon fishing?\x22\n\n                **Weather:**\n                • \x22What\x27s the weather like at Great Lake?\x22\n                • \x22Fishing conditions for tomorrow?\x22\n\n                Just ask naturally - I\x27ll understand! 🎣\n                "

/-- `RAG_ANSWER_PROMPT.format(query=..., context=...)` (prompts.py). -/
def ragAnswerPrompt (query context : String) : String :=
  "\nAnswer the following question about fishing in Tasmania using ONLY the provided context.\n\n    Question: " ++ query ++
  "\n\n    Context from official documents: " ++ context ++
  "\n\n    Instructions:\n        - Answer based on the provided context\n        - Be conversational and friendly while staying accurate\n        - Use clear formatting with bullet points for lists\n        - Include specific citations (mention source documents)\n        - If the context doesn\x27t fully answer the question, say so and suggest where to find more info\n        - Be precise about numbers (bag limits, sizes, dates)\n        - Add a helpful emoji or two for visual appeal (🎣 🐟 📍 ✅ ⚠️)\n        - End with a brief, helpful follow-up suggestion (1 sentence max)\n\n    Answer:\n"

/-- `TOOL_ANSWER_PROMPTS.format(query=..., tool_json=...)` (prompts.py). -/
def toolAnswerPrompt (query toolJson : String) : String :=
  "\nYou are the Tasmania Fishing Assistant. You will receive weather forecast data and need to provide helpful fishing advice.\n\n    Question: " ++ query ++
  "\n    \n    Tools JSON: " ++ toolJson ++
  "\n    \n    Instructions:\n        - Write a SHORT, helpful answer tailored to the user\x27s question\n        - Use ONLY facts from the tool JSON - do NOT invent data\n        - If the JSON includes \x22best_fishing_day\x22, highlight it prominently\n        - If showing multi-day forecast, format as a clear table or list\n        - Convert dates from YYYY-MM-DD to readable format\n        - Include fishing scores/ratings when provided\n\n    Errors:\n        - If error in JSON, explain briefly and suggest one alternative\n        - Don\x27t show stack traces or technical details\n\n    Return only the final Markdown answer. No JSON, no code fences.\n    \n    Answer:\n"

/-- `TOOL_INTEGRATION_PROMPT.format(query=..., context=..., tool_json=...)`
(prompts.py). -/
def toolIntegrationPrompt (query context toolJson : String) : String :=
  "\nAnswer the following question about fishing in Tasmania using the provided information.\n\n    Question: " ++ query ++
  "\n\n    Context from documents: \n    " ++ context ++
  "\n\n    Tool Result (Weather Data): \n    " ++ toolJson ++
  "\n\n    Instructions:\n        - Combine information from BOTH documents and tool results naturally\n        - Start with the fishing rules/regulations from the documents\n        - Then provide the weather forecast from the tool\n        - Explain tool results in plain, conversational language\n        - Cite document sources when relevant\n        - Use clear formatting and structure\n        - Add appropriate emojis for visual appeal (🎣 🐟 📍 ✅ ⚠️ 🌤️)\n        - Format weather dates as readable\n        - End with a related suggestion or helpful tip\n\n    Answer:\n"

/-- `GENERAL_CHAT_PROMPT.format(query=...)` (prompts.py). -/
def generalChatPrompt (query : String) : String :=
  "\nYou are a Tasmania Fishing Assistant. The user asked a question that doesn\x27t require fishing regulations, weather data, or species information.\n\nUser Question: " ++ query ++
  "\n\nYour task:\n1. Determine if this is a casual conversation OR an out-of-scope fishing question\n2. Respond appropriately\n\nGuidelines:\n- If asking about fishing in OTHER locations (not Tasmania): Politely explain you only cover Tasmania and suggest they check local authorities\n- If it\x27s casual conversation: Respond briefly and friendly, then ask how you can help with Tasmania fishing\n- If unclear: Ask a clarifying question\n- Always stay helpful and on-brand\n\nRespond naturally and conversationally. Keep it brief (2-3 sentences max).\n\nAnswer:\n"

/-- `Router._enhance_answer_interactivity` (router.py lines 225-252). -/
def enhanceAnswerInteractivity (answer query : String) : String :=
  let ql := pyLower query
  let suggestions : List String :=
    if containsSub ql "bag limit" || containsSub ql "how many" then
      ["ðŸ’¡ Want to know size limits too?",
       "ðŸ“ Need good locations for this species?"]
    else if containsSub ql "where" || containsSub ql "location" then
      ["ðŸŒ¤ï¸ Would you like the weather forecast for this location?",
       "ðŸŸ Want to know what species are there?"]
    else if containsSub ql "license" || containsSub ql "permit" then
      ["ðŸ’¡ Need to know bag limits for your license type?",
       "ðŸ“‹ Want to know where to get your license?"]
    else if containsSub ql "caught" || containsSub ql "legal" || containsSub ql "keep" then
      ["ðŸ“ Want to check another fish size?",
       "ðŸŽ£ Need to know the bag limit?"]
    else []
  if ¬ suggestions.isEmpty then
    answer ++ "\n\n**What else can I help with?**\n" ++
      String.intercalate "\n" ((suggestions.take 2).map (fun s => "â€¢ " ++ s))
  else answer

/-- `Router._handle_general_chat` (router.py lines 110-131). -/
def handleGeneralChat (llm : String → String) (query : String) : String :=
  let ql := pyLower query
  if (containsSub ql "hello" || containsSub ql "hi" || containsSub ql "hey")
      && ql.length < 20 then generalChatGreeting
  else if (containsSub ql "thanks" || containsSub ql "thank") && ql.length < 30 then
    generalChatThanks
  else if (containsSub ql "bye" || containsSub ql "goodbye") && ql.length < 20 then
    generalChatGoodbye
  else if containsSub ql "help" && ql.length < 30 then generalChatHelp
  else llm (generalChatPrompt query)

/-- One retrieval tuple `(id, document, metadata)` of `RAGModel.search`;
`upsert` always writes `source` and `section` metadata, the `section`
default of `meta.get('section', 'general')` is kept as an `Option`. -/
structure Retrieval where
  chunkId : String
  doc : String
  source : String
  sectionName : Option String

/-- Citation-tagged context block built by the RAG handlers. -/
def contextBlock (retrievals : List Retrieval) : String :=
  String.intercalate "\n\n"
    (retrievals.map (fun r =>
      "[Source: " ++ r.source ++ "/" ++ r.sectionName.getD "general" ++ "]\n" ++ r.doc))

/-- `Router._handle_rag_only` (router.py lines 134-160). `ToolsModel` has
no `normalize_text_species` attribute, so the `hasattr` guard makes
`q_norm = query`. -/
def handleRagOnly (search : String → List Retrieval) (llm : String → String)
    (query : String) : String :=
  let retrievals := search query
  if retrievals.isEmpty then uiMessagesNoAnswer
  else
    enhanceAnswerInteractivity
      (llm (ragAnswerPrompt query (contextBlock retrievals))) query

/-- `Router._handle_tool_only` (router.py lines 163-183). The success
branch reads `result["data"]`, a key no tool result of `ToolsModel`
carries; the resulting `KeyError` propagates out of this handler (there is
no `try` around it). -/
def handleToolOnly (ctx : ToolsCtx) (llm : String → String) (query : String)
    (d : RouteDecision) : Except PyErr String :=
  let toolName := d.toolName
  let paramsV := if pyTruthyV d.toolParams then d.toolParams else PyVal.dict []
  let afterGuard : Except PyErr String :=
    match paramsV with
    | PyVal.dict kvs =>
      (match callToolE ctx toolName kvs with
       | Except.error e => Except.error e
       | Except.ok result =>
         if ¬ pyTruthy (dget result "success") then
           let toolJson := pyJsonDumps ((dget result "error").getD (PyVal.dict []))
           Except.ok (enhanceAnswerInteractivity (llm (toolAnswerPrompt query toolJson)) query)
         else
           match dget result "data" with
           | some dataV =>
             Except.ok (enhanceAnswerInteractivity
               (llm (toolAnswerPrompt query (pyJsonDumps dataV))) query)
           | Option.none => Except.error (PyErr.keyError "data"))
    | _ => Except.error (PyErr.typeError "argument after ** must be a mapping")
  match toolName with
  | PyVal.str name =>
    if name = "get_fishing_weather" then
      match paramsV with
      | PyVal.dict kvs =>
        (match dget kvs "location" with
         | some (PyVal.str _) => afterGuard
         | _ => Except.ok uiMessagesError)
      | _ => Except.error (PyErr.attributeError jsonAttrErrMsg)
    else afterGuard
  | _ => afterGuard

/-- `Router._handle_rag_and_tool` (router.py lines 186-222): same steps as
the tool-only handler plus the document context, but the whole body sits in
a `try/except` that converts any exception into `UI_MESSAGES['error']`. -/
def handleRagAndTool (ctx : ToolsCtx) (search : String → List Retrieval)
    (llm : String → String) (query : String) (d : RouteDecision) : String :=
  let res : Except PyErr String :=
    let retrievals := search query
    let context :=
      if ¬ retrievals.isEmpty then contextBlock retrievals
      else "No relevant documents found."
    let paramsV := if pyTruthyV d.toolParams then d.toolParams else PyVal.dict []
    match paramsV with
    | PyVal.dict kvs =>
      (match callToolE ctx d.toolName kvs with
       | Except.error e => Except.error e
       | Except.ok result =>
         let payloadE : Except PyErr PyVal :=
           if pyTruthy (dget result "success") then
             match dget result "data" with
             | some v => Except.ok v
             | Option.none => Except.error (PyErr.keyError "data")
           else Except.ok (PyVal.dict [("error", (dget result "error").getD (PyVal.dict []))])
         match payloadE with
         | Except.ok payload =>
           Except.ok (enhanceAnswerInteractivity
             (llm (toolIntegrationPrompt query context (pyJsonDumps payload))) query)
         | Except.error e => Except.error e)
    | _ => Except.error (PyErr.typeError "argument after ** must be a mapping")
  match res with
  | Except.ok s => s
  | Except.error _ => uiMessagesError

/-- `Router.execute_route` (router.py lines 88-107). -/
def executeRoute (ctx : ToolsCtx) (search : String → List Retrieval)
    (llm : String → String) (query : String) (d : RouteDecision) :
    Except PyErr String :=
  match d.routeType with
  | RouteType.generalChat => Except.ok (handleGeneralChat llm query)
  | RouteType.ragOnly => Except.ok (handleRagOnly search llm query)
  | RouteType.toolOnly => handleToolOnly ctx llm query d
  | RouteType.ragAndTool => Except.ok (handleRagAndTool ctx search llm query d)

/-- `Router.query_with_routing` (router.py lines 255-260): classify, then
execute; `classifierOut` is the outcome of the text-generation call made by
`_llm_route`. -/
def queryWithRouting (ctx : ToolsCtx) (search : String → List Retrieval)
    (llm : String → String) (classifierOut : Except String String)
    (query : String) : Except PyErr String :=
  executeRoute ctx search llm query (llmRoute classifierOut)

/-- `MainWindow.chat` (main_ui.py lines 191-212): empty input short-circuits
to `""`; otherwise the whole pipeline call sits in a `try/except` whose
handler returns `UI_MESSAGES['error']` with the exception text appended —
the caller never sees a raw exception. `botQuery` is the outcome of
`self.bot.query(message)` (any exception inside it, including the
attribute lookup itself, lands in the `except`). -/
def chat (botQuery : String → Except PyErr String) (message : String) : String :=
  if pyStrip message = "" then ""
  else
    match botQuery message with
    | Except.ok response => response
    | Except.error e =>
      uiMessagesError ++ "\n\n**Error details:** " ++ pyErrStr e

/-! ## Text chunking (`rag_model.py`, `chunk_text`) -/

/-- The `while i < len(words)` loop of `chunk_text` (rag_model.py lines
133-138): emit the window at `i`, advance by `max(1, chunk_size -
overlap)`. -/
def chunkLoop (words : List String) (chunkSize overlap : ℕ) (i : ℕ) : List String :=
  if _h : i < words.length then
    joinWords ((words.drop i).take chunkSize) ::
      chunkLoop words chunkSize overlap (i + max 1 (chunkSize - overlap))
  else []
termination_by words.length - i
decreasing_by
  have h1 : 1 ≤ max 1 (chunkSize - overlap) := le_max_left _ _
  omega

/-- `RAGModel.chunk_text` (rag_model.py lines 127-140). -/
def chunkText (text : String) (chunkSize overlap : ℕ) : List String :=
  chunkLoop (pySplitWs text) chunkSize overlap 0

/-! ## Helper lemmas on normalization -/

theorem pyLowerChar_idem (c : Char) : pyLowerChar (pyLowerChar c) = pyLowerChar c := by
  cases hf : upperLowerTable.find? (fun p => p.1 == c) with
  | none => simp [pyLowerChar, hf]
  | some p =>
    have hp : p ∈ upperLowerTable := List.mem_of_find?_eq_some hf
    have h1 : pyLowerChar c = p.2 := by simp [pyLowerChar, hf]
    rw [h1]
    fin_cases hp <;> rfl

theorem isPySpace_pyLowerChar (c : Char) : isPySpace (pyLowerChar c) = isPySpace c := by
  cases hf : upperLowerTable.find? (fun p => p.1 == c) with
  | none => simp [pyLowerChar, hf]
  | some p =>
    have hp : p ∈ upperLowerTable := List.mem_of_find?_eq_some hf
    have h1 : pyLowerChar c = p.2 := by simp [pyLowerChar, hf]
    have h2 : p.1 = c := by
      have := List.find?_some hf
      simpa using this
    rw [h1, ← h2]
    fin_cases hp <;> rfl

theorem dropWhile_idem (p : Char → Bool) (l : List Char) :
    (l.dropWhile p).dropWhile p = l.dropWhile p := by
  induction l with
  | nil => rfl
  | cons a t ih =>
    by_cases h : p a
    · rw [List.dropWhile_cons_of_pos h]; exact ih
    · rw [List.dropWhile_cons_of_neg h, List.dropWhile_cons_of_neg h]

theorem dropWhile_head_not (p : Char → Bool) (l : List Char) :
    ∀ x t, l.dropWhile p = x :: t → p x = false := by
  induction l with
  | nil => intro x t h; simp [List.dropWhile] at h
  | cons a l ih =>
    intro x t h
    by_cases hp : p a
    · rw [List.dropWhile_cons_of_pos hp] at h; exact ih x t h
    · rw [List.dropWhile_cons_of_neg hp] at h
      cases h
      simpa using hp

theorem dropWhile_sfx (p : Char → Bool) (l : List Char) : l.dropWhile p <:+ l := by
  induction l with
  | nil => simp
  | cons a t ih =>
    by_cases h : p a
    · rw [List.dropWhile_cons_of_pos h]
      exact ih.trans (List.suffix_cons a t)
    · rw [List.dropWhile_cons_of_neg h]

theorem stripChars_pfx (l : List Char) : stripChars l <+: l.dropWhile isPySpace := by
  unfold stripChars
  have h1 : (l.dropWhile isPySpace).reverse.dropWhile isPySpace <:+
      (l.dropWhile isPySpace).reverse := dropWhile_sfx _ _
  obtain ⟨u, hu⟩ := h1
  refine ⟨u.reverse, ?_⟩
  have := congrArg List.reverse hu
  simpa using this

theorem stripChars_head_not (l : List Char) (x : Char) (t : List Char)
    (h : stripChars l = x :: t) : isPySpace x = false := by
  obtain ⟨u, hu⟩ := stripChars_pfx l
  rw [h] at hu
  exact dropWhile_head_not isPySpace l x (t ++ u) (by simpa using hu.symm)

theorem stripChars_idem (l : List Char) : stripChars (stripChars l) = stripChars l := by
  have step1 : (stripChars l).dropWhile isPySpace = stripChars l := by
    cases hb : stripChars l with
    | nil => rfl
    | cons x t =>
      have hx := stripChars_head_not l x t hb
      rw [List.dropWhile_cons_of_neg (by simp [hx])]
  have step2 : (stripChars l).reverse.dropWhile isPySpace = (stripChars l).reverse := by
    have hrev : (stripChars l).reverse =
        ((l.dropWhile isPySpace).reverse).dropWhile isPySpace := by
      unfold stripChars
      simp
    rw [hrev]
    exact dropWhile_idem _ _
  show ((((stripChars l).dropWhile isPySpace).reverse).dropWhile isPySpace).reverse
      = stripChars l
  rw [step1, step2]
  simp

theorem dropWhile_map_lower (l : List Char) :
    (l.map pyLowerChar).dropWhile isPySpace = (l.dropWhile isPySpace).map pyLowerChar := by
  rw [List.dropWhile_map]
  have h : (isPySpace ∘ pyLowerChar) = isPySpace := funext isPySpace_pyLowerChar
  rw [h]

theorem stripChars_map_lower (l : List Char) :
    stripChars (l.map pyLowerChar) = (stripChars l).map pyLowerChar := by
  unfold stripChars
  rw [dropWhile_map_lower, ← List.map_reverse, dropWhile_map_lower, ← List.map_reverse]

theorem map_lower_idem (l : List Char) :
    (l.map pyLowerChar).map pyLowerChar = l.map pyLowerChar := by
  rw [List.map_map]
  have h : (pyLowerChar ∘ pyLowerChar) = pyLowerChar := funext pyLowerChar_idem
  rw [h]

theorem normalizeSpecies_idem (s : String) :
    normalizeSpecies (normalizeSpecies s) = normalizeSpecies s := by
  show String.mk (stripChars ((String.mk (stripChars (s.toList.map pyLowerChar))).toList.map pyLowerChar))
      = String.mk (stripChars (s.toList.map pyLowerChar))
  have h1 : (String.mk (stripChars (s.toList.map pyLowerChar))).toList
      = stripChars (s.toList.map pyLowerChar) := rfl
  rw [h1, stripChars_map_lower, stripChars_idem, stripChars_map_lower, map_lower_idem]

/-! ## Claim C4: legality verdict and signed difference -/

/-- C4: for every species present in the size-limit table (after
normalization) and every positive length, `check_legal_size` returns a
successful result with `legal = (length_cm ≥ minimum)` and
`difference_cm = length_cm − minimum`; `legal = true` exactly when the
difference is nonnegative and `legal = false` exactly when it is
negative. -/
theorem c4_legal_size_verdict (table : List (String × ℚ)) (species : String)
    (lengthCm m : ℚ)
    (hm : lookupQ table (normalizeSpecies species) = some m)
    (hL : 0 < lengthCm) :
    dget (checkLegalSize table true species lengthCm) "success" = some (PyVal.bool true)
    ∧ dget (checkLegalSize table true species lengthCm) "legal"
        = some (PyVal.bool (decide (m ≤ lengthCm)))
    ∧ dget (checkLegalSize table true species lengthCm) "difference_cm"
        = some (PyVal.num (lengthCm - m))
    ∧ (decide (m ≤ lengthCm) = true ↔ 0 ≤ lengthCm - m)
    ∧ (decide (m ≤ lengthCm) = false ↔ lengthCm - m < 0) := by
  have hnotle : ¬ lengthCm ≤ 0 := not_le.mpr hL
  refine ⟨?_, ?_, ?_, ?_, ?_⟩
  · simp [checkLegalSize, hm, hnotle, dget]
  · simp [checkLegalSize, hm, hnotle, dget]
  · simp [checkLegalSize, hm, hnotle, dget]
  · simp [sub_nonneg]
  · simp [sub_neg]

/-- Witness for C4 at the guaranteed manual table entry
`brown trout ↦ 25 cm` and a 26 cm catch. -/
theorem c4_legal_size_verdict_witness :
    dget (checkLegalSize manualSizes true "brown trout" 26) "success"
        = some (PyVal.bool true)
    ∧ dget (checkLegalSize manualSizes true "brown trout" 26) "legal"
        = some (PyVal.bool (decide ((25 : ℚ) ≤ 26)))
    ∧ dget (checkLegalSize manualSizes true "brown trout" 26) "difference_cm"
        = some (PyVal.num (26 - 25))
    ∧ (decide ((25 : ℚ) ≤ 26) = true ↔ 0 ≤ (26 : ℚ) - 25)
    ∧ (decide ((25 : ℚ) ≤ 26) = false ↔ (26 : ℚ) - 25 < 0) :=
  c4_legal_size_verdict manualSizes "brown trout" 26 25 (by rfl) (by norm_num)

/-! ## Claim C8: normalization invariance of the legality check -/

/-- C8 counterexample: the claim quantifies over every species string, but
for a species absent from the table the error and message strings embed
the raw input verbatim, so `check("NotARealFish ", 5)` differs from
`check("notarealfish", 5)` even though the normalized keys coincide. -/
theorem c8_counterexample :
    checkLegalSize manualSizes true "NotARealFish " 5
      ≠ checkLegalSize manualSizes true "notarealfish" 5 := by
  intro h
  have h1 : lookupQ manualSizes (normalizeSpecies "NotARealFish ") = Option.none := by rfl
  have h2 : lookupQ manualSizes (normalizeSpecies "notarealfish") = Option.none := by rfl
  have herr := congrArg (fun d => dget d "error") h
  simp only [checkLegalSize, h1, h2, dget] at herr
  simp at herr

/-- C8 as amended: whenever the normalized species is present in the
table, `check_legal_size` on the raw string returns exactly the same
result dict as on the lowercased, whitespace-trimmed form (the success,
invalid-length and disabled paths only ever use the normalized name); for
a species absent from the table the two results agree except that the
error/message strings embed the original input verbatim. -/
theorem c8_normalization_invariance (table : List (String × ℚ)) (enabled : Bool)
    (species : String) (lengthCm : ℚ)
    (h : (lookupQ table (normalizeSpecies species)).isSome = true) :
    checkLegalSize table enabled species lengthCm
      = checkLegalSize table enabled (normalizeSpecies species) lengthCm := by
  obtain ⟨m, hm⟩ := Option.isSome_iff_exists.mp h
  cases enabled with
  | false => simp [checkLegalSize]
  | true =>
    have hm2 : lookupQ table (normalizeSpecies (normalizeSpecies species)) = some m := by
      rw [normalizeSpecies_idem]; exact hm
    simp [checkLegalSize, hm, hm2, normalizeSpecies_idem]

/-- Witness for C8 at `check("Brown Trout ", 26)` against the manual
table. -/
theorem c8_normalization_invariance_witness :
    checkLegalSize manualSizes true "Brown Trout " 26
      = checkLegalSize manualSizes true (normalizeSpecies "Brown Trout ") 26 :=
  c8_normalization_invariance manualSizes true "Brown Trout " 26 (by rfl)

/-! ## Claim C10: species lookup precedes length validation -/

/-- C10: when the normalized species is absent from the table, the
unknown-species error is returned for every length (including
non-positive ones), because the species check precedes the length check;
and the invalid-length error can only arise for a species present in the
table. -/
theorem c10_species_check_first (table : List (String × ℚ)) (species : String)
    (h : lookupQ table (normalizeSpecies species) = Option.none) :
    (∀ lengthCm lengthCm2 : ℚ,
        checkLegalSize table true species lengthCm
          = checkLegalSize table true species lengthCm2)
    ∧ (∀ lengthCm : ℚ,
        dget (checkLegalSize table true species lengthCm) "error"
          = some (PyVal.str ("Unknown species: " ++ species)))
    ∧ (∀ (s : String) (lengthCm : ℚ),
        dget (checkLegalSize table true s lengthCm) "error"
            = some (PyVal.str "Invalid length") →
        lookupQ table (normalizeSpecies s) ≠ Option.none) := by
  refine ⟨?_, ?_, ?_⟩
  · intro a b; simp [checkLegalSize, h]
  · intro a; simp [checkLegalSize, h, dget]
  · intro s a herr hnone
    simp only [checkLegalSize, hnone, dget] at herr
    simp at herr
    have hlen := congrArg String.length herr
    simp [String.length_append] at hlen
    have h17 : ("Unknown species: " : String).length = 17 := by rfl
    have h14 : ("Invalid length" : String).length = 14 := by rfl
    omega

/-- Witness for C10: unknown species `bream` gets the unknown-species
error even at negative length, and the invalid-length error (raised for
`brown trout` at −3 cm) implies table membership. -/
theorem c10_species_check_first_witness :
    checkLegalSize manualSizes true "bream" (-3) = checkLegalSize manualSizes true "bream" 7
    ∧ dget (checkLegalSize manualSizes true "bream" (-3)) "error"
        = some (PyVal.str ("Unknown species: " ++ "bream"))
    ∧ lookupQ manualSizes (normalizeSpecies "brown trout") ≠ Option.none := by
  have h := c10_species_check_first manualSizes "bream" (by rfl)
  exact ⟨h.1 (-3) 7, h.2.1 (-3), h.2.2 "brown trout" (-3) (by rfl)⟩

/-! ## Claim C1: the scoring bands -/

/-- Temperature band of the claim as amended (matching the source:
`[10,25] ↦ +3`, `[5,10) ∪ (25,30] ↦ +1`, else `0`). -/
def c1TempBand (t : ℚ) : ℕ :=
  if 10 ≤ t ∧ t ≤ 25 then 3
  else if (5 ≤ t ∧ t < 10) ∨ (25 < t ∧ t ≤ 30) then 1
  else 0

/-- Wind band of the claim as amended (`< 15 ↦ +3`, `[15,25) ↦ +1`,
else `0`). -/
def c1WindBand (w : ℚ) : ℕ :=
  if w < 15 then 3
  else if 15 ≤ w ∧ w < 25 then 1
  else 0

/-- Rain band of the claim as amended (`< 2 ↦ +2`, `[2,10) ↦ +1`,
else `0`). -/
def c1RainBand (r : ℚ) : ℕ :=
  if r < 2 then 2
  else if 2 ≤ r ∧ r < 10 then 1
  else 0

/-- The fishing score as the amended claim words it: the sum of the three
independent band contributions. -/
def c1AmendedScore (t w r : ℚ) : ℕ := c1TempBand t + c1WindBand w + c1RainBand r

/-- The fishing score exactly as claim C1 words it (temperature
`[10,25] ↦ +4`, `[5,10) ∪ (25,30] ↦ +2`, `[0,5) ∪ (30,35] ↦ +1`; wind
`< 15 ↦ +3`, `[15,25) ↦ +2`, `[25,35) ↦ +1`; rain `< 2 ↦ +3`,
`[2,10) ↦ +2`, `[10,20) ↦ +1`). -/
def c1ClaimScore (t w r : ℚ) : ℕ :=
  (if 10 ≤ t ∧ t ≤ 25 then 4
   else if (5 ≤ t ∧ t < 10) ∨ (25 < t ∧ t ≤ 30) then 2
   else if (0 ≤ t ∧ t < 5) ∨ (30 < t ∧ t ≤ 35) then 1
   else 0) +
  (if w < 15 then 3
   else if 15 ≤ w ∧ w < 25 then 2
   else if 25 ≤ w ∧ w < 35 then 1
   else 0) +
  (if r < 2 then 3
   else if 2 ≤ r ∧ r < 10 then 2
   else if 10 ≤ r ∧ r < 20 then 1
   else 0)

theorem tempScoreFactor_fst (t : ℚ) : (tempScoreFactor t).1 = c1TempBand t := by
  unfold tempScoreFactor c1TempBand
  split_ifs <;> rfl

theorem windScoreFactor_fst (w : ℚ) : (windScoreFactor w).1 = c1WindBand w := by
  unfold windScoreFactor c1WindBand
  split_ifs <;> rfl

theorem rainScoreFactor_fst (r : ℚ) : (rainScoreFactor r).1 = c1RainBand r := by
  unfold rainScoreFactor c1RainBand
  split_ifs <;> rfl

/-- C1 counterexample: at the claimed example forecast (17 °C, 10 km/h,
0 mm) the code scores `3 + 3 + 2 = 8`, while the bands stated in the
claim would give `4 + 3 + 3 = 10`. -/
theorem c1_counterexample :
    numAt (assessFishingConditions (some
        [("temp_avg_c", PyVal.num 17), ("wind_speed_kmh", PyVal.num 10),
         ("rainfall_mm", PyVal.num 0)])) "score" = 8
    ∧ c1ClaimScore 17 10 0 = 10
    ∧ (8 : ℚ) ≠ 10 := by
  refine ⟨?_, by decide, by norm_num⟩
  simp [assessFishingConditions, numAt, dget, tempScoreFactor, windScoreFactor,
    rainScoreFactor]
  norm_num

/-- C1 as amended: for every forecast dict carrying the three numeric
fields, the score of `_assess_fishing_conditions` is exactly the sum of
the band contributions `[10,25] ↦ +3` / `[5,10) ∪ (25,30] ↦ +1` for
temperature, `< 15 ↦ +3` / `[15,25) ↦ +1` for wind and `< 2 ↦ +2` /
`[2,10) ↦ +1` for rain; the maximum is 8 and is attained at the example
forecast (17 °C, 10 km/h, 0 mm). -/
theorem c1_score_bands (d : PyDict) (t w r : ℚ)
    (ht : dget d "temp_avg_c" = some (PyVal.num t))
    (hw : dget d "wind_speed_kmh" = some (PyVal.num w))
    (hr : dget d "rainfall_mm" = some (PyVal.num r)) :
    numAt (assessFishingConditions (some d)) "score" = (c1AmendedScore t w r : ℚ)
    ∧ c1AmendedScore t w r ≤ 8
    ∧ c1AmendedScore 17 10 0 = 8 := by
  refine ⟨?_, ?_, by decide⟩
  · simp [assessFishingConditions, numAt, dget, ht, hw, hr, tempScoreFactor_fst,
      windScoreFactor_fst, rainScoreFactor_fst, c1AmendedScore]
  · unfold c1AmendedScore c1TempBand c1WindBand c1RainBand
    split_ifs <;> norm_num

/-- Witness for C1 as amended, at the example forecast. -/
theorem c1_score_bands_witness :
    numAt (assessFishingConditions (some
        [("temp_avg_c", PyVal.num 17), ("wind_speed_kmh", PyVal.num 10),
         ("rainfall_mm", PyVal.num 0)])) "score" = (c1AmendedScore 17 10 0 : ℚ)
    ∧ c1AmendedScore 17 10 0 ≤ 8
    ∧ c1AmendedScore 17 10 0 = 8 :=
  c1_score_bands _ 17 10 0 (by rfl) (by rfl) (by rfl)

/-! ## Claim C5: rating bands -/

/-- C5 counterexample: a forecast scoring 7 (17 °C, 10 km/h, 5 mm) is
rated "Excellent" by the code, while the claimed bands (`Excellent` iff
score ≥ 8, `Good` iff 6 ≤ score < 8) would call a 7 "Good". -/
theorem c5_counterexample :
    numAt (assessFishingConditions (some
        [("temp_avg_c", PyVal.num 17), ("wind_speed_kmh", PyVal.num 10),
         ("rainfall_mm", PyVal.num 5)])) "score" = 7
    ∧ strAt (assessFishingConditions (some
        [("temp_avg_c", PyVal.num 17), ("wind_speed_kmh", PyVal.num 10),
         ("rainfall_mm", PyVal.num 5)])) "rating" = "Excellent"
    ∧ ("Excellent" : String) ≠ "Good" := by
  refine ⟨?_, ?_, by decide⟩
  · simp [assessFishingConditions, numAt, dget, tempScoreFactor, windScoreFactor,
      rainScoreFactor]
    norm_num
  · simp [assessFishingConditions, strAt, numAt, dget, tempScoreFactor,
      windScoreFactor, rainScoreFactor, ratingEmoji]
    norm_num

/-- C5 as amended: the presentation rating is "Excellent" iff the score is
at least 7, "Good" iff it is in `[5,7)`, "Fair" iff it is in `[3,5)`, and
"Poor" otherwise; the assessment dict carries exactly this rating for its
computed score. -/
theorem c5_rating_bands :
    (∀ score : ℕ,
      ((ratingEmoji score).1 = "Excellent" ↔ 7 ≤ score)
      ∧ ((ratingEmoji score).1 = "Good" ↔ 5 ≤ score ∧ score < 7)
      ∧ ((ratingEmoji score).1 = "Fair" ↔ 3 ≤ score ∧ score < 5)
      ∧ ((ratingEmoji score).1 = "Poor" ↔ score < 3))
    ∧ (∀ d : PyDict,
      strAt (assessFishingConditions (some d)) "rating"
        = (ratingEmoji ((tempScoreFactor (numAt d "temp_avg_c")).1
            + (windScoreFactor (numAt d "wind_speed_kmh")).1
            + (rainScoreFactor (numAt d "rainfall_mm")).1)).1) := by
  constructor
  · intro score
    unfold ratingEmoji
    refine ⟨?_, ?_, ?_, ?_⟩ <;> split_ifs <;> simp_all <;> omega
  · intro d
    simp [assessFishingConditions, strAt, dget]

/-! ## Claim C6: chunk counts and overlap -/

theorem chunkLoop_eq (words : List String) (W O i : ℕ) :
    chunkLoop words W O i =
      if i < words.length then
        joinWords ((words.drop i).take W) :: chunkLoop words W O (i + max 1 (W - O))
      else [] := by
  rw [chunkLoop]
  by_cases h : i < words.length <;> simp [h]

theorem ceil_div_step (m s : ℕ) (hs : 0 < s) (hm : 1 ≤ m) :
    (m + s - 1) / s = (m - s + s - 1) / s + 1 := by
  rcases le_or_lt m s with h | h
  · have h0 : m - s = 0 := by omega
    have h1 : m + s - 1 = (m - 1) + s := by omega
    rw [h0, h1, Nat.add_div_right _ hs, Nat.div_eq_of_lt (by omega)]
    have h2 : 0 + s - 1 = s - 1 := by omega
    rw [h2, Nat.div_eq_of_lt (by omega)]
  · have h1 : m + s - 1 = (m - s + s - 1) + s := by omega
    rw [h1, Nat.add_div_right _ hs]

theorem chunkLoop_length (words : List String) (W O : ℕ) :
    ∀ n i, words.length - i ≤ n →
      (chunkLoop words W O i).length
        = ((words.length - i) + max 1 (W - O) - 1) / max 1 (W - O) := by
  intro n
  induction n with
  | zero =>
    intro i h
    have hs : 1 ≤ max 1 (W - O) := le_max_left _ _
    have hi : ¬ i < words.length := by omega
    have h0 : words.length - i = 0 := by omega
    rw [chunkLoop_eq]
    simp only [hi, if_false, List.length_nil, h0]
    exact (Nat.div_eq_of_lt (by omega)).symm
  | succ n ih =>
    intro i h
    have hs : 1 ≤ max 1 (W - O) := le_max_left _ _
    by_cases hi : i < words.length
    · rw [chunkLoop_eq]
      simp only [hi, if_true, List.length_cons]
      rw [ih (i + max 1 (W - O)) (by omega)]
      have heq : words.length - (i + max 1 (W - O))
          = (words.length - i) - max 1 (W - O) := by omega
      rw [heq]
      exact (ceil_div_step (words.length - i) (max 1 (W - O)) (by omega) (by omega)).symm
    · rw [chunkLoop_eq]
      simp only [hi, if_false, List.length_nil]
      have h0 : words.length - i = 0 := by omega
      rw [h0]
      exact (Nat.div_eq_of_lt (by omega)).symm

theorem chunkLoop_get (words : List String) (W O : ℕ) :
    ∀ k i, i + k * max 1 (W - O) < words.length →
      (chunkLoop words W O i).get? k
        = some (joinWords ((words.drop (i + k * max 1 (W - O))).take W)) := by
  intro k
  induction k with
  | zero =>
    intro i h
    simp only [Nat.zero_mul, Nat.add_zero] at h ⊢
    rw [chunkLoop_eq]
    simp [h]
  | succ k ih =>
    intro i h
    have hle : i ≤ i + (k + 1) * max 1 (W - O) := Nat.le_add_right _ _
    have hi : i < words.length := by omega
    have harg : (i + max 1 (W - O)) + k * max 1 (W - O)
        = i + (k + 1) * max 1 (W - O) := by
      rw [Nat.succ_mul]; ring
    rw [chunkLoop_eq]
    simp only [hi, if_true, List.get?_cons_succ]
    rw [ih (i + max 1 (W - O)) (by rw [harg]; exact h), harg]

theorem window_overlap (words : List String) (W O k : ℕ) (hOW : O < W) :
    ((words.drop (k * (W - O))).take W).drop (W - O)
      = ((words.drop ((k + 1) * (W - O))).take W).take O := by
  have h1 : ((words.drop (k * (W - O))).take W).drop (W - O)
      = ((words.drop (k * (W - O))).drop (W - O)).take (W - (W - O)) :=
    List.drop_take _ _ _
  have h2 : W - (W - O) = O := by omega
  have h3 : ((words.drop (k * (W - O))).drop (W - O))
      = words.drop ((k + 1) * (W - O)) := by
    rw [List.drop_drop]
    congr 1
    rw [Nat.succ_mul]
  have h4 : ((words.drop ((k + 1) * (W - O))).take W).take O
      = (words.drop ((k + 1) * (W - O))).take (min O W) := List.take_take _ _ _
  have h5 : min O W = O := by omega
  rw [h1, h2, h3, h4, h5]

/-- C6 counterexample: a ten-word text chunked with window 5 and overlap 2
yields 4 chunks (the loop steps by `max(1, W−O) = 3` over all `L` words),
while the claimed formula `ceil((L−O)/(W−O)) = ceil(8/3)` gives 3. -/
theorem c6_counterexample :
    (chunkText "a b c d e f g h i j" 5 2).length = 4
    ∧ (10 - 2 + ((5 - 2) - 1)) / (5 - 2) = 3
    ∧ (4 : ℕ) ≠ 3 := by
  refine ⟨?_, by norm_num, by norm_num⟩
  have hlen : (pySplitWs "a b c d e f g h i j").length = 10 := by decide
  have h := chunkLoop_length (pySplitWs "a b c d e f g h i j") 5 2 10 0
    (by simp [hlen])
  unfold chunkText
  rw [h, hlen]
  decide

/-- C6 as amended: `chunk_text` produces `ceil(L / max(1, W−O))` chunks
(not `ceil((L−O)/(W−O))`): the loop emits a window at every multiple of
the step `max(1, W−O)` below `L`. Consecutive *full* windows share exactly
`O` words (the last `O` words of one window are the first `O` of the
next); the `W ≤ O` boundary case is clamped to step 1 and involves no
division. -/
theorem c6_chunk_count_and_overlap (text : String) (W O : ℕ) :
    (chunkText text W O).length
        = ((pySplitWs text).length + max 1 (W - O) - 1) / max 1 (W - O)
    ∧ 1 ≤ max 1 (W - O)
    ∧ (∀ k, k * max 1 (W - O) < (pySplitWs text).length →
        (chunkText text W O).get? k
          = some (joinWords (((pySplitWs text).drop (k * max 1 (W - O))).take W)))
    ∧ (O < W → ∀ k,
        ((((pySplitWs text).drop (k * (W - O))).take W).drop (W - O))
          = (((pySplitWs text).drop ((k + 1) * (W - O))).take W).take O) := by
  refine ⟨?_, le_max_left _ _, ?_, ?_⟩
  · have h := chunkLoop_length (pySplitWs text) W O (pySplitWs text).length 0 (by omega)
    unfold chunkText
    rw [h]
    simp
  · intro k hk
    have h := chunkLoop_get (pySplitWs text) W O k 0 (by simpa using hk)
    unfold chunkText
    rw [h]
    simp
  · intro hOW k
    exact window_overlap (pySplitWs text) W O k hOW

/-- Witness for C6 as amended at the ten-word example with window 5 and
overlap 2: 4 chunks, the second chunk is the window starting at word 3,
and windows 0 and 1 share their 2-word overlap. -/
theorem c6_chunk_count_and_overlap_witness :
    (chunkText "a b c d e f g h i j" 5 2).length
        = ((pySplitWs "a b c d e f g h i j").length + max 1 (5 - 2) - 1) / max 1 (5 - 2)
    ∧ (chunkText "a b c d e f g h i j" 5 2).get? 1
        = some (joinWords (((pySplitWs "a b c d e f g h i j").drop (1 * max 1 (5 - 2))).take 5))
    ∧ ((((pySplitWs "a b c d e f g h i j").drop (0 * (5 - 2))).take 5).drop (5 - 2))
        = (((pySplitWs "a b c d e f g h i j").drop ((0 + 1) * (5 - 2))).take 5).take 2 := by
  have h := c6_chunk_count_and_overlap "a b c d e f g h i j" 5 2
  exact ⟨h.1, h.2.2.1 1 (by decide), h.2.2.2 (by norm_num) 0⟩

/-! ## Claim C9: day-count handling of the weather forecast -/

theorem pySlice_length {α : Type} (l : List α) (d : ℤ) :
    (pySlice l d).length =
      if 0 ≤ d then min d.toNat l.length
      else l.length - min l.length d.natAbs := by
  unfold pySlice
  split_ifs with h
  · simp [List.length_take]
  · simp [List.length_take]

/-- C9 as amended: requests above 5 days are capped only through the
sample request (`cnt = min(days·8, 40)`, i.e. at most 5 days of 3-hourly
samples); the summary list is truncated by Python slicing `[:days]`, so a
nonnegative request yields `min(days, available dates)` summaries — in
particular `days = 0` yields an empty list rather than being clamped to 1
— and a negative request drops trailing days instead of being clamped. -/
theorem c9_day_count_truncation (samples : List WSample) (location : String) :
    ∀ days : ℤ,
      cntParam days ≤ 40
      ∧ (5 ≤ days → cntParam days = 40)
      ∧ numForecasts (getOWMForecast samples location days)
          = (if 0 ≤ days then min days.toNat (groupDaily samples).length
             else (groupDaily samples).length
                    - min (groupDaily samples).length days.natAbs) := by
  intro days
  refine ⟨min_le_right _ _, ?_, ?_⟩
  · intro h5
    unfold cntParam
    omega
  · show numForecasts (getOWMForecast samples location days) = _
    unfold numForecasts getOWMForecast
    simp [dget, List.length_map, pySlice_length]

/-- Witness for C9 as amended at a 7-day request over one sample. -/
theorem c9_day_count_truncation_witness :
    cntParam 7 ≤ 40
    ∧ cntParam 7 = 40
    ∧ numForecasts (getOWMForecast
          [⟨"2025-10-12 00:00:00", 17, "clear sky", 10, 60, Option.none⟩]
          "Hobart" 7)
        = (if (0 : ℤ) ≤ 7 then
             min (7 : ℤ).toNat
               (groupDaily [⟨"2025-10-12 00:00:00", 17, "clear sky", 10, 60,
                 Option.none⟩]).length
           else (groupDaily [⟨"2025-10-12 00:00:00", 17, "clear sky", 10, 60,
                 Option.none⟩]).length
                  - min (groupDaily [⟨"2025-10-12 00:00:00", 17, "clear sky", 10, 60,
                      Option.none⟩]).length (7 : ℤ).natAbs) := by
  have h := c9_day_count_truncation
    [⟨"2025-10-12 00:00:00", 17, "clear sky", 10, 60, Option.none⟩] "Hobart" 7
  exact ⟨h.1, h.2.1 (by norm_num), h.2.2⟩

/-- C9 counterexample: a request of 0 days is not clamped into `[1,5]`:
with one provider sample it yields an empty forecast list, while the
clamped request of 1 day yields one summary, so the two results differ. -/
theorem c9_counterexample :
    numForecasts (getOWMForecast
        [⟨"2025-10-12 00:00:00", 17, "clear sky", 10, 60, Option.none⟩]
        "Hobart" 0) = 0
    ∧ numForecasts (getOWMForecast
        [⟨"2025-10-12 00:00:00", 17, "clear sky", 10, 60, Option.none⟩]
        "Hobart" 1) = 1
    ∧ getOWMForecast
        [⟨"2025-10-12 00:00:00", 17, "clear sky", 10, 60, Option.none⟩]
        "Hobart" 0
      ≠ getOWMForecast
          [⟨"2025-10-12 00:00:00", 17, "clear sky", 10, 60, Option.none⟩]
          "Hobart" 1 := by
  refine ⟨by decide, by decide, ?_⟩
  intro h
  have h2 := congrArg numForecasts h
  rw [show numForecasts (getOWMForecast
        [⟨"2025-10-12 00:00:00", 17, "clear sky", 10, 60, Option.none⟩]
        "Hobart" 0) = 0 from by decide,
      show numForecasts (getOWMForecast
        [⟨"2025-10-12 00:00:00", 17, "clear sky", 10, 60, Option.none⟩]
        "Hobart" 1) = 1 from by decide] at h2
  exact absurd h2 (by norm_num)

/-! ## Claim C2: classification failure fallback -/

/-- C2 counterexample: non-JSON garbage without any brace is coerced to
the literal empty-object text by lines 57-59 of router.py, which then
*parses successfully* as `{}`; with both booleans missing (hence falsy)
the router returns a GENERAL_CHAT decision, not the claimed DocsOnly
fallback (and the decision dict never carries a `succeeded` field at
all). -/
theorem c2_counterexample :
    (llmRoute (Except.ok "I cannot decide")).routeType = RouteType.generalChat
    ∧ (llmRoute (Except.ok "I cannot decide")).needsRag = false
    ∧ RouteType.generalChat ≠ RouteType.ragOnly := by
  refine ⟨by rfl, by rfl, by decide⟩

/-- C2 as amended: the DocsOnly (RAG_ONLY) fallback — `needs_rag = true`,
`needs_tool = false`, `tool_name = None`, empty params, rationale
prefixed "Fallback to RAG due to routing error:" — is returned exactly
when an exception escapes inside `_llm_route`: the generation call
raising, `json.loads` failing on the extracted text, or the decoded value
not being an object; it is never ToolOnly. Garbage containing no JSON
object is instead coerced to `{}` and routed to GENERAL_CHAT, and the
decision dict has no `succeeded` field. -/
theorem c2_fallback_docs_only :
    (∀ e : String,
      (llmRoute (Except.error e)).routeType = RouteType.ragOnly
      ∧ (llmRoute (Except.error e)).needsRag = true
      ∧ (llmRoute (Except.error e)).needsTool = false
      ∧ (llmRoute (Except.error e)).toolName = PyVal.none
      ∧ (llmRoute (Except.error e)).reasoning
          = PyVal.str ("Fallback to RAG due to routing error: " ++ e)
      ∧ (llmRoute (Except.error e)).routeType ≠ RouteType.toolOnly)
    ∧ (∀ response : String,
        jsonLoads (extractRaw response) = Option.none →
        (llmRoute (Except.ok response)).routeType = RouteType.ragOnly
        ∧ (llmRoute (Except.ok response)).needsRag = true
        ∧ (llmRoute (Except.ok response)).needsTool = false
        ∧ (llmRoute (Except.ok response)).toolName = PyVal.none
        ∧ (llmRoute (Except.ok response)).reasoning
            = PyVal.str ("Fallback to RAG due to routing error: " ++ jsonDecodeErrMsg)
        ∧ (llmRoute (Except.ok response)).routeType ≠ RouteType.toolOnly) := by
  constructor
  · intro e
    exact ⟨rfl, rfl, rfl, rfl, rfl,
      by show RouteType.ragOnly ≠ RouteType.toolOnly; decide⟩
  · intro response h
    simp only [llmRoute, h]
    exact ⟨rfl, rfl, rfl, rfl, rfl,
      by show RouteType.ragOnly ≠ RouteType.toolOnly; decide⟩

/-- Witness for C2 as amended: a raising generation call, and a response
whose brace span is not valid JSON. -/
theorem c2_fallback_docs_only_witness :
    (llmRoute (Except.error "boom")).routeType = RouteType.ragOnly
    ∧ (llmRoute (Except.ok "{oops}")).routeType = RouteType.ragOnly
    ∧ (llmRoute (Except.ok "{oops}")).needsTool = false
    ∧ (llmRoute (Except.ok "{oops}")).toolName = PyVal.none := by
  have h1 := c2_fallback_docs_only.1 "boom"
  have h2 := c2_fallback_docs_only.2 "{oops}" (by rfl)
  exact ⟨h1.1, h2.1, h2.2.2.1, h2.2.2.2.1⟩

/-! ## Claim C7: empty retrieval on the DocsOnly path -/

/-- C7: when the retrieval collaborator returns no chunks, the RAG-only
handler returns exactly the fixed knowledge-base message (which directs
the user to the Inland Fisheries Service) — the generation collaborator
is never consulted, as the result is the same for every `llm`. -/
theorem c7_empty_retrieval_message (search : String → List Retrieval)
    (llm : String → String) (query : String)
    (h : search query = []) :
    handleRagOnly search llm query = uiMessagesNoAnswer := by
  simp [handleRagOnly, h]

/-- Witness for C7 with a concrete empty search and an arbitrary canned
generator. -/
theorem c7_empty_retrieval_message_witness :
    handleRagOnly (fun _ => []) (fun _ => "GENERATED") "Can I fish at night?"
      = uiMessagesNoAnswer :=
  c7_empty_retrieval_message (fun _ => []) (fun _ => "GENERATED")
    "Can I fish at night?" rfl

/-! ## Claim C3: composition never leaks an exception -/

/-- C3: executing a ToolOnly route whose tool call succeeds raises a
`KeyError` inside `_handle_tool_only` (the handler reads `result["data"]`,
a key no `ToolsModel` result carries), and the top-level `chat` wrapper of
the UI converts every such exception — any exception any pipeline raises —
into the single apology message, never letting a raw fault reach the
caller. -/
theorem c3_composition_never_faults (ctx : ToolsCtx) (search : String → List Retrieval)
    (llm : String → String) (query : String) (d : RouteDecision) (kvs : PyDict)
    (sp : String) (lengthCm m : ℚ)
    (hen : ctx.lsEnabled = true)
    (hroute : d.routeType = RouteType.toolOnly)
    (hname : d.toolName = PyVal.str "check_legal_size")
    (hparams : d.toolParams = PyVal.dict kvs)
    (hsp : dget kvs "species" = some (PyVal.str sp))
    (hlen : dget kvs "length_cm" = some (PyVal.num lengthCm))
    (hm : lookupQ ctx.table (normalizeSpecies sp) = some m)
    (hL : 0 < lengthCm)
    (hq : pyStrip query ≠ "") :
    executeRoute ctx search llm query d = Except.error (PyErr.keyError "data")
    ∧ (∀ (botQuery : String → Except PyErr String) (e : PyErr),
        botQuery query = Except.error e →
        chat botQuery query = uiMessagesError ++ "\n\n**Error details:** " ++ pyErrStr e)
    ∧ chat (fun q => executeRoute ctx search llm q d) query
        = uiMessagesError ++ "\n\n**Error details:** " ++ pyErrStr (PyErr.keyError "data") := by
  have hkvs : kvs ≠ [] := by
    intro h0
    rw [h0] at hsp
    simp [dget] at hsp
  have htruthy : pyTruthyV (PyVal.dict kvs) = true := by
    simp [pyTruthyV, hkvs]
  have hnotle : ¬ lengthCm ≤ 0 := not_le.mpr hL
  have hcall : callToolE ctx (PyVal.str "check_legal_size") kvs
      = Except.ok (checkLegalSize ctx.table true sp lengthCm) := by
    simp [callToolE, hsp, hlen, hen]
  have h1 : dget (checkLegalSize ctx.table true sp lengthCm) "success"
      = some (PyVal.bool true) := by
    simp [checkLegalSize, hm, hnotle, dget]
  have h2 : dget (checkLegalSize ctx.table true sp lengthCm) "data"
      = Option.none := by
    simp [checkLegalSize, hm, hnotle, dget]
  have hHTO : handleToolOnly ctx llm query d = Except.error (PyErr.keyError "data") := by
    unfold handleToolOnly
    rw [hname, hparams]
    have hkvsE : List.isEmpty kvs = false := by
      cases kvs with
      | nil => exact absurd rfl hkvs
      | cons a t => rfl
    simp [hkvsE, hcall, h1, h2, pyTruthy, pyTruthyV]
  have hexec : executeRoute ctx search llm query d
      = Except.error (PyErr.keyError "data") := by
    unfold executeRoute
    rw [hroute, hHTO]
  have hchat : ∀ (botQuery : String → Except PyErr String) (e : PyErr),
      botQuery query = Except.error e →
      chat botQuery query = uiMessagesError ++ "\n\n**Error details:** " ++ pyErrStr e := by
    intro bq e hbq
    simp [chat, hq, hbq]
  exact ⟨hexec, hchat, hchat (fun q => executeRoute ctx search llm q d)
    (PyErr.keyError "data") hexec⟩

/-- Concrete `ToolsModel` state for the C3 witness: the guaranteed manual
size table, legal-size tool enabled, weather disabled and offline. -/
def c3Ctx : ToolsCtx :=
  { table := manualSizes,
    lsEnabled := true,
    weatherEnabled := false,
    weatherApiKey := Option.none,
    weatherProvider := "openweathermap",
    fetch := fun _ => Except.error (PyErr.other "offline") }

/-- Concrete routing decision for the C3 witness: a ToolOnly route to the
legality checker for a 26 cm brown trout. -/
def c3Decision : RouteDecision :=
  { routeType := RouteType.toolOnly,
    needsRag := false,
    needsTool := true,
    toolName := PyVal.str "check_legal_size",
    toolParams := PyVal.dict
      [("species", PyVal.str "brown trout"), ("length_cm", PyVal.num 26)],
    reasoning := PyVal.str "legal size query" }

/-- Witness for C3 at the concrete ToolOnly scenario. -/
theorem c3_composition_never_faults_witness :
    executeRoute c3Ctx (fun _ => []) (fun _ => "GENERATED")
        "Is a 26cm brown trout legal to keep?" c3Decision
      = Except.error (PyErr.keyError "data")
    ∧ chat (fun q => executeRoute c3Ctx (fun _ => []) (fun _ => "GENERATED") q c3Decision)
        "Is a 26cm brown trout legal to keep?"
      = uiMessagesError ++ "\n\n**Error details:** " ++ pyErrStr (PyErr.keyError "data") := by
  have h := c3_composition_never_faults c3Ctx (fun _ => []) (fun _ => "GENERATED")
    "Is a 26cm brown trout legal to keep?" c3Decision
    [("species", PyVal.str "brown trout"), ("length_cm", PyVal.num 26)]
    "brown trout" 26 25
    (by rfl) (by rfl) (by rfl) (by rfl) (by rfl) (by rfl) (by rfl)
    (by norm_num) (by decide)
  exact ⟨h.1, h.2.2⟩
